import Mathlib

/-!
Shallow embedding of the EasyLog repository's logging bootstrap core
(src/easylogz/logger_module.py): configuration merging, log-directory
resolution with its fallback chain, the singleton manager's
initialization state machine, and the generated Uvicorn logging
configuration. Filesystem effects (mkdir, file open) are modelled by an
environment of oracles; the process-wide manager object is modelled as
an explicit state threaded through the operations, with Python
exceptions modelled by a raised-result constructor carrying the state
as mutated up to the raise.
-/

namespace EasyLog

/-- Filesystem path, mirroring pathlib.Path: an absolute flag plus a list of components. -/
structure Path where
  absolute : Bool
  components : List String
deriving DecidableEq, Repr

/-- Mirrors the pathlib / operator on two paths: an absolute right side replaces the left. -/
def Path.join (p q : Path) : Path :=
  if q.absolute then q else { absolute := p.absolute, components := p.components ++ q.components }

/-- Mirrors the pathlib / operator with a single name on the right. -/
def Path.sub (p : Path) (c : String) : Path :=
  { absolute := p.absolute, components := p.components ++ [c] }

/-- Mirrors pathlib Path.name: the final component, or the empty string. -/
def Path.name (p : Path) : String :=
  p.components.getLast?.getD ""

/-- Mirrors pathlib Path.resolve for the aspects the code relies on: a relative path is made absolute against the current working directory. -/
def Path.resolveIn (p : Path) (cwd : Path) : Path :=
  if p.absolute then p else cwd.join p

/-- Splits a character list at every occurrence of the separator, accumulating the current component reversed. -/
def splitOnChar (sep : Char) : List Char → List Char → List String
  | [], cur => [String.mk cur.reverse]
  | c :: rest, cur =>
      if c = sep then String.mk cur.reverse :: splitOnChar sep rest []
      else splitOnChar sep rest (c :: cur)

/-- Mirrors pathlib parsing of a path string: leading slash means absolute, empty and single-dot components are dropped. -/
def Path.parse (s : String) : Path :=
  { absolute := match s.toList with | List.cons c _ => c = '/' | [] => false,
    components := (splitOnChar '/' s.toList []).filter (fun c => (c != "") && (c != ".")) }

/-- Uppercases one ASCII character, mirroring str.upper on the level-name alphabet. -/
def upperChar (c : Char) : Char :=
  if ('a' ≤ c ∧ c ≤ 'z') then Char.ofNat (c.toNat - 32) else c

/-- Mirrors str.upper for the ASCII strings the level lookup receives. -/
def strUpper (s : String) : String :=
  String.mk (s.toList.map upperChar)

/-- Mirrors pathlib PurePath.stem: the file name without its last suffix. -/
def fileStem (s : String) : String :=
  let parts := splitOnChar '.' s.toList []
  match parts with
  | [] => s
  | [x] => x
  | _ => String.intercalate "." parts.dropLast

/-- Process environment: filesystem oracles and ambient directories used by the bootstrap code. mkdirOk p models mkdir(parents=True, exist_ok=True) succeeding at p (so an already existing directory counts as success); openOk p models opening the rotating file at p for append; moduleRoot models Path(given-file).parent.parent.resolve(), none when that derivation fails; consoleOk models the StreamHandler construction in the console try block. -/
structure Env where
  cwd : Path
  home : Path
  tmpdir : Path
  moduleRoot : Option Path
  mkdirOk : Path → Bool
  openOk : Path → Bool
  consoleOk : Bool
  time : Nat

/-- Active configuration record: the fixed key set of the DEFAULT_CONFIG dict in the source. -/
structure Config where
  log_level : String
  max_bytes : Nat
  backup_count : Nat
  console_output : Bool
  log_filename : Option String
  project_root : Option Path
  log_dir : Option Path
  format : String
  date_format : String
  configure_uvicorn_logging_runtime : Bool
  uvicorn_log_level_runtime : String
deriving DecidableEq, Repr

/-- DEFAULT_CONFIG from the source (logger_module.py lines 28-41). -/
def DEFAULT_CONFIG : Config :=
  { log_level := "INFO",
    max_bytes := 10 * 1024 * 1024,
    backup_count := 5,
    console_output := true,
    log_filename := some "app.log",
    project_root := none,
    log_dir := none,
    format := "%(asctime)s - %(name)s - %(levelname)s - %(message)s",
    date_format := "%Y-%m-%d %H:%M:%S",
    configure_uvicorn_logging_runtime := false,
    uvicorn_log_level_runtime := "INFO" }

/-- Caller-supplied configuration dict or keyword arguments: each field is present or absent, mirroring key presence in a Python dict passed to dict.update. -/
structure ConfigOverrides where
  log_level : Option String := none
  max_bytes : Option Nat := none
  backup_count : Option Nat := none
  console_output : Option Bool := none
  log_filename : Option (Option String) := none
  project_root : Option (Option Path) := none
  log_dir : Option (Option Path) := none
  format : Option String := none
  date_format : Option String := none
  configure_uvicorn_logging_runtime : Option Bool := none
  uvicorn_log_level_runtime : Option String := none
deriving DecidableEq, Repr

/-- Mirrors dict.update(overrides) on the fixed key set: a present key overwrites the base field. -/
def ConfigOverrides.applyTo (o : ConfigOverrides) (c : Config) : Config :=
  { log_level := o.log_level.getD c.log_level,
    max_bytes := o.max_bytes.getD c.max_bytes,
    backup_count := o.backup_count.getD c.backup_count,
    console_output := o.console_output.getD c.console_output,
    log_filename := o.log_filename.getD c.log_filename,
    project_root := o.project_root.getD c.project_root,
    log_dir := o.log_dir.getD c.log_dir,
    format := o.format.getD c.format,
    date_format := o.date_format.getD c.date_format,
    configure_uvicorn_logging_runtime :=
      o.configure_uvicorn_logging_runtime.getD c.configure_uvicorn_logging_runtime,
    uvicorn_log_level_runtime := o.uvicorn_log_level_runtime.getD c.uvicorn_log_level_runtime }

/-- Mirrors the merge in initialize (lines 76-80): final = DEFAULT_CONFIG.copy(); final.update(config) when a config dict is given; final.update(kwargs). -/
def mergeConfig (base : Config) (config : Option ConfigOverrides) (kwargs : ConfigOverrides) : Config :=
  kwargs.applyTo ((config.map (fun c => c.applyTo base)).getD base)

/-- LOG_LEVELS mapping from the source (lines 19-25), with the stdlib numeric level values. -/
def LOG_LEVELS : List (String × Nat) :=
  [("DEBUG", 10), ("INFO", 20), ("WARNING", 30), ("ERROR", 40), ("CRITICAL", 50)]

/-- Mirrors LoggerManager.get_log_level: uppercase lookup in LOG_LEVELS, unknown names degrade to INFO with a side-channel diagnostic. -/
def getLogLevel (s : String) : Nat :=
  (LOG_LEVELS.lookup (strUpper s)).getD 20

/-- A sink handler attached to the root logger, recording the parameters the source passes when constructing it. -/
inductive Handler where
  | file (path : Path) (maxBytes : Nat) (backupCount : Nat) (level : Nat) (fmt : String × String)
  | console (level : Nat) (fmt : String × String)
deriving DecidableEq, Repr

/-- The process-wide root logger: its level and attached handlers. -/
structure RootLogger where
  level : Nat
  handlers : List Handler
deriving DecidableEq, Repr

/-- The LoggerManager singleton's mutable attributes, plus setupCount, a ghost counter of completed runs of setup_logging_internal used to state the run-exactly-once invariant. -/
structure ManagerState where
  initialized : Bool
  finalConfig : Option Config
  logDir : Option Path
  formatter : Option (String × String)
  root : RootLogger
  setupCount : Nat
deriving DecidableEq, Repr

/-- Manager state of a fresh process: flag false, no stored config, no formatter, root logger at stdlib default WARNING with no handlers. -/
def initialState : ManagerState :=
  { initialized := false, finalConfig := none, logDir := none, formatter := none,
    root := { level := 30, handlers := [] }, setupCount := 0 }

/-- Result of running one manager operation: normal return, or a Python exception carrying the attempted directory list, together with the object state as mutated up to the raise. -/
inductive StepResult where
  | ok (st : ManagerState)
  | raised (st : ManagerState) (attempted : List Path)
deriving DecidableEq, Repr

/-- The state component of a step result. -/
def StepResult.state : StepResult → ManagerState
  | .ok st => st
  | .raised st _ => st

/-- Whether the step returned normally. -/
def StepResult.isOk : StepResult → Bool
  | .ok _ => true
  | .raised _ _ => false

/-- Side-channel and logger messages the claims mention. -/
inductive Msg where
  | reinitWarning
  | explicitInitialized (logDir : Option Path)
deriving DecidableEq, Repr

/-- Mirrors LoggerManager.resolve_project_root (lines 151-161): an explicit root is resolved as given; otherwise the module-location derivation, falling back to the current working directory when it fails. -/
def resolveProjectRoot (env : Env) (project_root : Option Path) : Path :=
  match project_root with
  | none => env.moduleRoot.getD env.cwd
  | some p => p.resolveIn env.cwd

/-- Mirrors LoggerManager.resolve_log_dir (lines 163-173): none gives project_root/logs, a relative override is joined under project_root, an absolute override is used as-is. -/
def resolveLogDir (log_dir : Option Path) (project_root : Path) : Path :=
  match log_dir with
  | none => project_root.sub "logs"
  | some p => if p.absolute = false then project_root.join p else p

/-- The dirs_to_try list in create_log_directory (lines 177-182). -/
def dirsToTry (env : Env) (log_dir project_root : Path) : List Path :=
  [log_dir,
   project_root.sub "logs",
   (env.home.sub ".logs").sub project_root.name,
   (env.tmpdir.sub project_root.name).sub "logs"]

/-- The final fallback directory in create_log_directory (line 192). -/
def fallbackTemp (env : Env) : Path :=
  env.tmpdir.sub "app_logs"

/-- Every directory create_log_directory may attempt, in order: dirs_to_try then the last-resort temp directory. -/
def chain (env : Env) (log_dir project_root : Path) : List Path :=
  dirsToTry env log_dir project_root ++ [fallbackTemp env]

/-- Equality of fallible results is decidable when both components are. -/
instance exceptDecEq {ε α : Type _} [DecidableEq ε] [DecidableEq α] : DecidableEq (Except ε α)
  | .ok a, .ok b =>
      if h : a = b then isTrue (by rw [h])
      else isFalse (by intro hh; injection hh; contradiction)
  | .ok _, .error _ => isFalse (by intro h; exact Except.noConfusion h)
  | .error _, .ok _ => isFalse (by intro h; exact Except.noConfusion h)
  | .error a, .error b =>
      if h : a = b then isTrue (by rw [h])
      else isFalse (by intro hh; injection hh; contradiction)

/-- The for loop over dirs_to_try in create_log_directory: first directory whose creation succeeds, none when all fail. -/
def tryCreateDirs (env : Env) : List Path → Option Path
  | [] => none
  | d :: rest => if env.mkdirOk d then some d else tryCreateDirs env rest

/-- Mirrors LoggerManager.create_log_directory (lines 175-202): try the fallback chain, return the first resolved success; when the chain and the last-resort temp directory all fail, raise an error enumerating every attempted path. -/
def createLogDirectory (env : Env) (log_dir project_root : Path) : Except (List Path) Path :=
  match tryCreateDirs env (dirsToTry env log_dir project_root) with
  | some d => .ok (d.resolveIn env.cwd)
  | none =>
      let fb := fallbackTemp env
      if env.mkdirOk fb then .ok (fb.resolveIn env.cwd)
      else .error (dirsToTry env log_dir project_root ++ [fb])

/-- Mirrors LoggerManager.add_file_handler (lines 221-257): try the main log file; on failure retry once with a time-stamped temp file in the resolved log directory; when both fail, file logging is omitted. -/
def addFileHandler (env : Env) (root : RootLogger) (fmtr : String × String) (level : Nat)
    (logFile : Path) (logDir : Path) (maxBytes backupCount : Nat) : RootLogger :=
  if env.openOk logFile then
    { root with handlers := root.handlers ++ [Handler.file logFile maxBytes backupCount level fmtr] }
  else
    let tmp := logDir.sub (fileStem logFile.name ++ "." ++ toString env.time ++ ".tmp.log")
    if env.openOk tmp then
      { root with handlers := root.handlers ++ [Handler.file tmp maxBytes backupCount level fmtr] }
    else root

/-- Mirrors LoggerManager.add_console_handler (lines 259-268): a stdout stream handler, omitted when construction fails. -/
def addConsoleHandler (env : Env) (root : RootLogger) (fmtr : String × String) (level : Nat) : RootLogger :=
  if env.consoleOk then
    { root with handlers := root.handlers ++ [Handler.console level fmtr] }
  else root

/-- Mirrors LoggerManager.setup_logging_internal (lines 105-141): resolve level, project root and log directory (create_log_directory may raise), reset and clear the root logger, build the formatter, then attach the file and console handlers per the configuration. Returns the updated state together with the config dict as mutated in place (its project_root key is overwritten with the resolved root). -/
def setupLoggingInternal (env : Env) (st : ManagerState) (config : Config) :
    Except (List Path) (ManagerState × Config) :=
  match createLogDirectory env
      (resolveLogDir config.log_dir (resolveProjectRoot env config.project_root))
      (resolveProjectRoot env config.project_root) with
  | .error e => .error e
  | .ok logDir =>
      let level := getLogLevel config.log_level
      let config2 := { config with project_root := some (resolveProjectRoot env config.project_root) }
      let root0 : RootLogger := { level := level, handlers := [] }
      let fmtr := (config2.format, config2.date_format)
      let root1 :=
        match config2.log_filename with
        | some fn =>
            if fn = "" then root0
            else addFileHandler env root0 fmtr level (logDir.sub fn) logDir
                   config2.max_bytes config2.backup_count
        | none => root0
      let root2 := if config2.console_output then addConsoleHandler env root1 fmtr level else root1
      .ok ({ st with logDir := some logDir, formatter := some fmtr, root := root2,
                     setupCount := st.setupCount + 1 }, config2)

/-- Mirrors LoggerManager.initialize (lines 64-91): a no-op emitting a warning when already initialized; otherwise merge the configuration, store it, run setup (a raise leaves the stored config behind and the flag unset), set the flag, and emit the success message. -/
def initializeLogging (env : Env) (st : ManagerState) (config : Option ConfigOverrides)
    (kwargs : ConfigOverrides) : StepResult × List Msg :=
  if st.initialized then
    (.ok st, [Msg.reinitWarning])
  else
    match setupLoggingInternal env
        { st with finalConfig := some (mergeConfig DEFAULT_CONFIG config kwargs) }
        (mergeConfig DEFAULT_CONFIG config kwargs) with
    | .error e =>
        (.raised { st with finalConfig := some (mergeConfig DEFAULT_CONFIG config kwargs) } e, [])
    | .ok (st2, final2) =>
        (.ok { st2 with finalConfig := some final2, initialized := true },
         [Msg.explicitInitialized st2.logDir])

/-- Mirrors LoggerManager.ensure_initialized (lines 93-103): fast-path flag check, then under the lock a re-check and a setup run with a fresh copy of the default configuration; the stored final config is not touched. -/
def ensureInitialized (env : Env) (st : ManagerState) : StepResult :=
  if st.initialized then .ok st
  else
    match setupLoggingInternal env st DEFAULT_CONFIG with
    | .error e => .raised st e
    | .ok (st2, _) => .ok { st2 with initialized := true }

/-- Mirrors LoggerManager.get_logger (lines 343-349): ensure initialization, then return the handle registered under the name in the process-wide logging registry (a raise during lazy initialization propagates). -/
def getLogger (env : Env) (st : ManagerState) (name : String) : StepResult × Option String :=
  match ensureInitialized env st with
  | .ok st2 => (.ok st2, some name)
  | .raised st2 e => (.raised st2 e, none)

/-- Mirrors LoggerManager.get_log_path (lines 356-360): ensure initialization, then the resolved log directory, falling back to the current working directory. -/
def getLogPath (env : Env) (st : ManagerState) : StepResult × Option Path :=
  match ensureInitialized env st with
  | .ok st2 => (.ok st2, some (st2.logDir.getD env.cwd))
  | .raised st2 e => (.raised st2 e, none)

/-- One formatter entry of the generated Uvicorn log config dict. -/
structure FormatterSpec where
  cls : String
  fmt : String
  datefmt : String
deriving DecidableEq, Repr

/-- One handler entry of the generated Uvicorn log config dict. -/
structure HandlerSpec where
  formatter : String
  cls : String
  stream : String
deriving DecidableEq, Repr

/-- One logger entry of the generated Uvicorn log config dict; propagate is none when the dict entry carries no propagate key. -/
structure LoggerSpec where
  handlers : List String
  level : String
  propagate : Option Bool
deriving DecidableEq, Repr

/-- The dict shape returned by get_uvicorn_log_config. -/
structure UvicornLogConfig where
  version : Nat
  disable_existing_loggers : Bool
  formatters : List (String × FormatterSpec)
  handlers : List (String × HandlerSpec)
  loggers : List (String × LoggerSpec)
deriving DecidableEq, Repr

/-- The literal log_config dict built in get_uvicorn_log_config (lines 381-431), as a function of the formatter's format and date-format strings — the only parts that depend on the active configuration. -/
def buildUvicornLogConfig (fmt datefmt : String) : UvicornLogConfig :=
  { version := 1,
    disable_existing_loggers := false,
    formatters := [("custom", { cls := "logging.Formatter", fmt := fmt, datefmt := datefmt })],
    handlers :=
      [("default",
        { formatter := "custom", cls := "logging.StreamHandler", stream := "ext://sys.stderr" })],
    loggers :=
      [("", { handlers := ["default"], level := "INFO", propagate := none }),
       ("uvicorn", { handlers := ["default"], level := "INFO", propagate := some false }),
       ("uvicorn.error", { handlers := ["default"], level := "INFO", propagate := some false }),
       ("uvicorn.access", { handlers := ["default"], level := "INFO", propagate := some false })] }

/-- Mirrors LoggerManager.get_uvicorn_log_config (lines 362-431): ensure initialization (a raise propagates), fall back to the default formatter when none is stored, and build the literal config dict. -/
def getUvicornLogConfig (env : Env) (st : ManagerState) : StepResult × Option UvicornLogConfig :=
  match ensureInitialized env st with
  | .raised st2 e => (.raised st2 e, none)
  | .ok st2 =>
      match st2.formatter with
      | none =>
          (.ok st2, some (buildUvicornLogConfig DEFAULT_CONFIG.format DEFAULT_CONFIG.date_format))
      | some fd => (.ok st2, some (buildUvicornLogConfig fd.1 fd.2))

/-- A public manager operation, for stating whole-process invariants over operation sequences. -/
inductive Op where
  | init (config : Option ConfigOverrides) (kwargs : ConfigOverrides)
  | logger (name : String)
  | logPath
  | uvicornConfig
deriving Repr

/-- The manager state after one public operation, whether it returned or raised. -/
def applyOp (env : Env) (st : ManagerState) : Op → ManagerState
  | .init c k => (initializeLogging env st c k).1.state
  | .logger n => (getLogger env st n).1.state
  | .logPath => (getLogPath env st).1.state
  | .uvicornConfig => (getUvicornLogConfig env st).1.state

/-- The manager state after a sequence of public operations, each under its own environment. -/
def runOps (st : ManagerState) (ops : List (Env × Op)) : ManagerState :=
  ops.foldl (fun s p => applyOp p.1 s p.2) st

/-- What a flag or sink access targets in the manager. -/
inductive Target where
  | initFlag
  | sinkSet
deriving DecidableEq, Repr

/-- One access to shared manager state as written in the source, recording whether it is a write and whether the manager lock is held at that program point. -/
structure Access where
  target : Target
  isWrite : Bool
  underLock : Bool
deriving DecidableEq, Repr

/-- Accesses to the initialization flag and the root handler set along LoggerManager.initialize (lines 64-91), in program order: the flag test at line 72, the handler mutations inside setup_logging_internal called at line 83, and the flag assignment at line 84 — none under the lock, which initialize never acquires. -/
def initializeAccesses : List Access :=
  [{ target := .initFlag, isWrite := false, underLock := false },
   { target := .sinkSet, isWrite := true, underLock := false },
   { target := .initFlag, isWrite := true, underLock := false }]

/-- Accesses along LoggerManager.ensure_initialized (lines 93-103), in program order: the unlocked fast-path flag test at line 95, then with the lock held the re-check at line 97, the handler mutations of setup_logging_internal at line 99, and the flag assignment at line 100. -/
def ensureInitializedAccesses : List Access :=
  [{ target := .initFlag, isWrite := false, underLock := false },
   { target := .initFlag, isWrite := false, underLock := true },
   { target := .sinkSet, isWrite := true, underLock := true },
   { target := .initFlag, isWrite := true, underLock := true }]

/-- Every write to shared manager state in the access list happens with the lock held. -/
def mutationsLocked (l : List Access) : Bool :=
  (l.filter (fun a => a.isWrite)).all (fun a => a.underLock)

/-- Double-checked pattern: the path opens with an unlocked read of the flag, and before any write there is a further read of the flag with the lock held. -/
def recheckBeforeWrite (l : List Access) : Bool :=
  match l with
  | [] => false
  | a :: rest =>
      (a.target == Target.initFlag) && !a.isWrite && !a.underLock &&
        ((rest.takeWhile (fun b => !b.isWrite)).any
          (fun b => (b.target == Target.initFlag) && b.underLock))

/-- Sample environment in which every filesystem operation succeeds. -/
def demoEnv : Env :=
  { cwd := ⟨true, ["srv", "app"]⟩, home := ⟨true, ["home", "u"]⟩, tmpdir := ⟨true, ["tmp"]⟩,
    moduleRoot := some ⟨true, ["srv", "app"]⟩, mkdirOk := fun _ => true, openOk := fun _ => true,
    consoleOk := true, time := 1700000000 }

/-- Sample environment in which every directory creation fails, including in the system temp directory. -/
def badEnv : Env :=
  { demoEnv with mkdirOk := fun _ => false }

/-- Sample environment in which only the user-home candidate of the fallback chain can be created. -/
def mixedEnv : Env :=
  { demoEnv with mkdirOk := fun p => p == Path.mk true ["home", "u", ".logs", "app"] }

/-- Sample project root used by the concrete witnesses. -/
def demoRoot : Path := ⟨true, ["srv", "app"]⟩

/-- Sample preferred log directory used by the concrete witnesses. -/
def demoPref : Path := ⟨true, ["data", "logs"]⟩

/-- Manager state after one successful explicit initialization with the default configuration. -/
def demoPostState : ManagerState := (initializeLogging demoEnv initialState none {}).1.state

/-- Messages emitted by that successful explicit initialization. -/
def demoPostMsgs : List Msg := (initializeLogging demoEnv initialState none {}).2

/-- The Uvicorn config produced under the default formatter. -/
def demoUviCfg : UvicornLogConfig :=
  buildUvicornLogConfig DEFAULT_CONFIG.format DEFAULT_CONFIG.date_format

/-- Process invariant: setup has completed at most once, and the flag is set exactly when it has completed once. -/
def Inv (st : ManagerState) : Prop :=
  st.setupCount ≤ 1 ∧ (st.initialized = true ↔ st.setupCount = 1)

theorem tryCreateDirs_eq_none_iff (env : Env) (l : List Path) :
    tryCreateDirs env l = none ↔ ∀ d ∈ l, env.mkdirOk d = false := by
  induction l with
  | nil => simp [tryCreateDirs]
  | cons a t ih =>
      by_cases h : env.mkdirOk a = true
      · simp [tryCreateDirs, h]
      · simp only [Bool.not_eq_true] at h
        simp [tryCreateDirs, h, ih]

theorem tryCreateDirs_first (env : Env) (l : List Path) (i : Nat) (hi : i < l.length)
    (hok : env.mkdirOk (l.get ⟨i, hi⟩) = true)
    (hprev : ∀ d ∈ l.take i, env.mkdirOk d = false) :
    tryCreateDirs env l = some (l.get ⟨i, hi⟩) := by
  induction l generalizing i with
  | nil => exact absurd hi (by simp)
  | cons a t ih =>
      cases i with
      | zero => simp [tryCreateDirs, List.get] at hok ⊢; simp [hok]
      | succ n =>
          have ha : env.mkdirOk a = false := hprev a (by simp)
          have ht := ih n (by simpa using hi) (by simpa using hok)
            (fun d hd => hprev d (by simp [hd]))
          simp [tryCreateDirs, ha, List.get]
          exact ht

theorem tryCreateDirs_append (env : Env) (l1 l2 : List Path) :
    tryCreateDirs env (l1 ++ l2) =
      match tryCreateDirs env l1 with
      | some d => some d
      | none => tryCreateDirs env l2 := by
  induction l1 with
  | nil => simp [tryCreateDirs]
  | cons a t ih =>
      by_cases h : env.mkdirOk a = true
      · simp [tryCreateDirs, h]
      · simp only [Bool.not_eq_true] at h
        simp [tryCreateDirs, h, ih]

theorem createLogDirectory_eq_chain (env : Env) (ld pr : Path) :
    createLogDirectory env ld pr =
      match tryCreateDirs env (chain env ld pr) with
      | some d => Except.ok (d.resolveIn env.cwd)
      | none => Except.error (chain env ld pr) := by
  unfold createLogDirectory chain
  rw [tryCreateDirs_append]
  cases h : tryCreateDirs env (dirsToTry env ld pr) with
  | some d => rfl
  | none =>
      cases hfb : env.mkdirOk (fallbackTemp env) with
      | true => simp [tryCreateDirs, hfb]
      | false => simp [tryCreateDirs, hfb]

/-- C3: create_log_directory fails with an error if and only if every candidate in the fallback chain, the last-resort system-temp app_logs directory included, fails to be created; and any raised error enumerates exactly the full list of attempted paths. -/
theorem createLogDirectory_error_iff_all_fail (env : Env) (ld pr : Path) :
    (createLogDirectory env ld pr = Except.error (chain env ld pr) ↔
      ∀ d ∈ chain env ld pr, env.mkdirOk d = false) ∧
    (∀ e, createLogDirectory env ld pr = Except.error e → e = chain env ld pr) := by
  have hc := createLogDirectory_eq_chain env ld pr
  constructor
  · constructor
    · intro h
      rw [← tryCreateDirs_eq_none_iff]
      cases ht : tryCreateDirs env (chain env ld pr) with
      | none => rfl
      | some d => rw [hc, ht] at h; exact absurd h (by simp)
    · intro h
      rw [hc, (tryCreateDirs_eq_none_iff env _).mpr h]
  · intro e he
    rw [hc] at he
    cases ht : tryCreateDirs env (chain env ld pr) with
    | none => rw [ht] at he; simpa using he.symm
    | some d => rw [ht] at he; exact absurd he (by simp)

/-- Witness for C3: in an environment where every directory creation fails, create_log_directory fails with the full attempted-path list. -/
theorem createLogDirectory_error_iff_all_fail_witness :
    createLogDirectory badEnv demoPref demoRoot = Except.error (chain badEnv demoPref demoRoot) :=
  (createLogDirectory_error_iff_all_fail badEnv demoPref demoRoot).1.mpr (by decide)

/-- C4: the candidate chain is, in order, the preferred directory, project-root/logs, user-home/.logs/project-name, system-temp/project-name/logs, and system-temp/app_logs as last resort; and when the first i candidates fail and candidate i succeeds (creation counting an existing directory as success), create_log_directory returns the resolved path of candidate i. -/
theorem createLogDirectory_first_success (env : Env) (ld pr : Path) (i : Nat)
    (hi : i < (chain env ld pr).length)
    (hok : env.mkdirOk ((chain env ld pr).get ⟨i, hi⟩) = true)
    (hprev : ∀ d ∈ (chain env ld pr).take i, env.mkdirOk d = false) :
    chain env ld pr =
      [ld, pr.sub "logs", (env.home.sub ".logs").sub pr.name,
       (env.tmpdir.sub pr.name).sub "logs", env.tmpdir.sub "app_logs"] ∧
    createLogDirectory env ld pr =
      Except.ok (((chain env ld pr).get ⟨i, hi⟩).resolveIn env.cwd) := by
  refine ⟨rfl, ?_⟩
  rw [createLogDirectory_eq_chain, tryCreateDirs_first env _ i hi hok hprev]

/-- Witness for C4: with the first two candidates failing and the user-home candidate succeeding, create_log_directory returns the user-home candidate. -/
theorem createLogDirectory_first_success_witness :
    createLogDirectory mixedEnv demoPref demoRoot =
      Except.ok (Path.mk true ["home", "u", ".logs", "app"]) := by
  have h := (createLogDirectory_first_success mixedEnv demoPref demoRoot 2
    (by decide) (by decide) (by decide)).2
  rw [h]
  decide

/-- C7: resolve_log_dir returns project_root/logs when the override is absent, joins a relative override under the project root, returns an absolute override unchanged, and in particular maps the relative override ./custom under root R to R/custom. -/
theorem resolveLogDir_cases (R : Path) :
    resolveLogDir none R = R.sub "logs" ∧
    (∀ p : Path, p.absolute = false → resolveLogDir (some p) R = R.join p) ∧
    (∀ p : Path, p.absolute = true → resolveLogDir (some p) R = p) ∧
    resolveLogDir (some (Path.parse "./custom")) R = R.sub "custom" := by
  refine ⟨rfl, ?_, ?_, ?_⟩
  · intro p hp; simp [resolveLogDir, hp]
  · intro p hp; simp [resolveLogDir, hp]
  · have hparse : Path.parse "./custom" = ⟨false, ["custom"]⟩ := by decide
    rw [hparse]
    simp [resolveLogDir, Path.join, Path.sub]

/-- Witness for C7: a concrete relative override joined under a concrete root. -/
theorem resolveLogDir_cases_witness :
    resolveLogDir (some (Path.mk false ["custom"])) demoRoot =
      demoRoot.join (Path.mk false ["custom"]) :=
  (resolveLogDir_cases demoRoot).2.1 (Path.mk false ["custom"]) rfl

/-- C6: the baked-in default configuration has exactly the stated field values, and merging overwrites it field by field, the caller's config dict winning over the defaults and keyword arguments winning over the config dict. -/
theorem default_config_and_merge (base : Config) (c k : ConfigOverrides) :
    DEFAULT_CONFIG =
      { log_level := "INFO", max_bytes := 10485760, backup_count := 5,
        console_output := true, log_filename := some "app.log",
        project_root := none, log_dir := none,
        format := "%(asctime)s - %(name)s - %(levelname)s - %(message)s",
        date_format := "%Y-%m-%d %H:%M:%S",
        configure_uvicorn_logging_runtime := false,
        uvicorn_log_level_runtime := "INFO" } ∧
    mergeConfig base none k = k.applyTo base ∧
    mergeConfig base (some c) k =
      { log_level := k.log_level.getD (c.log_level.getD base.log_level),
        max_bytes := k.max_bytes.getD (c.max_bytes.getD base.max_bytes),
        backup_count := k.backup_count.getD (c.backup_count.getD base.backup_count),
        console_output := k.console_output.getD (c.console_output.getD base.console_output),
        log_filename := k.log_filename.getD (c.log_filename.getD base.log_filename),
        project_root := k.project_root.getD (c.project_root.getD base.project_root),
        log_dir := k.log_dir.getD (c.log_dir.getD base.log_dir),
        format := k.format.getD (c.format.getD base.format),
        date_format := k.date_format.getD (c.date_format.getD base.date_format),
        configure_uvicorn_logging_runtime :=
          k.configure_uvicorn_logging_runtime.getD
            (c.configure_uvicorn_logging_runtime.getD base.configure_uvicorn_logging_runtime),
        uvicorn_log_level_runtime :=
          k.uvicorn_log_level_runtime.getD
            (c.uvicorn_log_level_runtime.getD base.uvicorn_log_level_runtime) } :=
  ⟨by decide, rfl, rfl⟩

theorem setup_ok_fields (env : Env) (st : ManagerState) (c : Config) (st2 : ManagerState)
    (c2 : Config) (h : setupLoggingInternal env st c = Except.ok (st2, c2)) :
    st2.initialized = st.initialized ∧ st2.setupCount = st.setupCount + 1 ∧
    st2.formatter = some (c.format, c.date_format) ∧ st2.finalConfig = st.finalConfig := by
  unfold setupLoggingInternal at h
  split at h
  · simp at h
  · injection h with h1
    injection h1 with ha hb
    subst ha
    exact ⟨rfl, rfl, rfl, rfl⟩

theorem ensureInitialized_of_initialized (env : Env) (st : ManagerState)
    (h : st.initialized = true) : ensureInitialized env st = StepResult.ok st := by
  unfold ensureInitialized
  rw [if_pos h]

theorem ensureInitialized_ok_flag (env : Env) (st st2 : ManagerState)
    (h : ensureInitialized env st = StepResult.ok st2) : st2.initialized = true := by
  unfold ensureInitialized at h
  cases hi : st.initialized with
  | true =>
      rw [hi] at h
      simp only [if_true] at h
      injection h with h1
      rw [← h1]
      exact hi
  | false =>
      rw [hi, if_neg Bool.false_ne_true] at h
      split at h
      · simp at h
      · injection h with h1
        rw [← h1]

theorem initializeLogging_of_initialized (env : Env) (st : ManagerState)
    (c : Option ConfigOverrides) (k : ConfigOverrides) (h : st.initialized = true) :
    initializeLogging env st c k = (StepResult.ok st, [Msg.reinitWarning]) := by
  unfold initializeLogging
  rw [if_pos h]

theorem initializeLogging_ok_flag (env : Env) (st st2 : ManagerState)
    (c : Option ConfigOverrides) (k : ConfigOverrides) (ms : List Msg)
    (h : initializeLogging env st c k = (StepResult.ok st2, ms)) : st2.initialized = true := by
  unfold initializeLogging at h
  cases hi : st.initialized with
  | true =>
      rw [hi] at h
      simp only [if_true] at h
      rw [Prod.mk.injEq] at h
      injection h.1 with h1
      rw [← h1]
      exact hi
  | false =>
      rw [hi, if_neg Bool.false_ne_true] at h
      split at h
      · rw [Prod.mk.injEq] at h
        exact absurd h.1 (by simp)
      · rw [Prod.mk.injEq] at h
        injection h.1 with h1
        rw [← h1]

/-- C2: a second call to initialize is a no-op apart from the repeat-initialization warning: it returns the state of the first successful call unchanged — same stored configuration, same resolved log directory, same root-logger handler set. -/
theorem initialize_idempotent (env env2 : Env) (st st2 : ManagerState)
    (c c2 : Option ConfigOverrides) (k k2 : ConfigOverrides) (ms : List Msg)
    (h : initializeLogging env st c k = (StepResult.ok st2, ms)) :
    st2.initialized = true ∧
    initializeLogging env2 st2 c2 k2 = (StepResult.ok st2, [Msg.reinitWarning]) := by
  have hf := initializeLogging_ok_flag env st st2 c k ms h
  exact ⟨hf, initializeLogging_of_initialized env2 st2 c2 k2 hf⟩

/-- Witness for C2: a concrete successful initialization followed by a second call that returns the identical state with only the warning message. -/
theorem initialize_idempotent_witness :
    initializeLogging demoEnv demoPostState none {} =
      (StepResult.ok demoPostState, [Msg.reinitWarning]) :=
  (initialize_idempotent demoEnv demoEnv initialState demoPostState none none {} {}
    demoPostMsgs (by decide)).2

/-- C1 counterexample: get_logger CAN fail before initialization has completed — at a fresh manager in an environment where every directory creation fails, lazy initialization raises the directory-exhaustion error out of get_logger and no logger handle is returned. -/
theorem getLogger_raises_when_lazy_init_exhausts_dirs :
    (getLogger badEnv initialState "app").1.isOk = false ∧
    (getLogger badEnv initialState "app").2 = none := by decide

/-- C1 (amended): get_logger ensures initialization and then returns the logger registered under the requested name; once the manager is initialized it never raises under any filesystem condition, and whenever it returns normally the manager is initialized and the named registry handle is returned. -/
theorem getLogger_total_once_initialized (env : Env) (st : ManagerState) (name : String)
    (h : st.initialized = true) :
    getLogger env st name = (StepResult.ok st, some name) ∧
    ∀ (env2 : Env) (st2 st3 : ManagerState),
      (getLogger env2 st2 name).1 = StepResult.ok st3 →
      st3.initialized = true ∧ (getLogger env2 st2 name).2 = some name := by
  constructor
  · unfold getLogger
    rw [ensureInitialized_of_initialized env st h]
  · intro env2 st2 st3 h2
    unfold getLogger at h2 ⊢
    cases he : ensureInitialized env2 st2 with
    | raised s e => rw [he] at h2; exact absurd h2 (by simp)
    | ok s =>
        rw [he] at h2
        injection h2 with h3
        exact ⟨h3 ▸ ensureInitialized_ok_flag env2 st2 s he, rfl⟩

/-- Witness for C1: on an initialized state, get_logger returns normally with the named handle. -/
theorem getLogger_total_once_initialized_witness :
    getLogger demoEnv demoPostState "svc" = (StepResult.ok demoPostState, some "svc") :=
  (getLogger_total_once_initialized demoEnv demoPostState "svc" (by decide)).1

theorem inv_zero (st : ManagerState) (h : Inv st) (hb : st.initialized = false) :
    st.setupCount = 0 := by
  obtain ⟨h1, h2⟩ := h
  by_contra hne
  have hone : st.setupCount = 1 := by omega
  have := h2.mpr hone
  rw [hb] at this
  exact Bool.noConfusion this

theorem inv_of_fields (st : ManagerState) (h1 : st.initialized = false)
    (h2 : st.setupCount = 0) : Inv st := by
  refine ⟨by omega, ?_⟩
  rw [h1, h2]
  simp

theorem inv_of_fields_one (st : ManagerState) (h1 : st.initialized = true)
    (h2 : st.setupCount = 1) : Inv st := by
  refine ⟨by omega, ?_⟩
  rw [h1, h2]
  simp

theorem initializeLogging_state_inv (env : Env) (st : ManagerState)
    (c : Option ConfigOverrides) (k : ConfigOverrides) (h : Inv st) :
    Inv (initializeLogging env st c k).1.state := by
  cases hi : st.initialized with
  | true => rw [initializeLogging_of_initialized env st c k hi]; exact h
  | false =>
      have hc0 := inv_zero st h hi
      have hneg : ¬(st.initialized = true) := by rw [hi]; exact Bool.false_ne_true
      unfold initializeLogging
      rw [if_neg hneg]
      cases hs : setupLoggingInternal env
          { st with finalConfig := some (mergeConfig DEFAULT_CONFIG c k) }
          (mergeConfig DEFAULT_CONFIG c k) with
      | error e =>
          exact inv_of_fields _ hi hc0
      | ok p =>
          obtain ⟨st2, f2⟩ := p
          have e1 : st2.setupCount = st.setupCount + 1 := (setup_ok_fields _ _ _ _ _ hs).2.1
          exact inv_of_fields_one _ rfl (show st2.setupCount = 1 by omega)

theorem ensureInitialized_state_inv (env : Env) (st : ManagerState) (h : Inv st) :
    Inv (ensureInitialized env st).state := by
  cases hi : st.initialized with
  | true => rw [ensureInitialized_of_initialized env st hi]; exact h
  | false =>
      have hc0 := inv_zero st h hi
      have hneg : ¬(st.initialized = true) := by rw [hi]; exact Bool.false_ne_true
      unfold ensureInitialized
      rw [if_neg hneg]
      cases hs : setupLoggingInternal env st DEFAULT_CONFIG with
      | error e =>
          exact inv_of_fields _ hi hc0
      | ok p =>
          obtain ⟨st2, f2⟩ := p
          have e1 : st2.setupCount = st.setupCount + 1 := (setup_ok_fields _ _ _ _ _ hs).2.1
          exact inv_of_fields_one _ rfl (show st2.setupCount = 1 by omega)

theorem getLogger_state (env : Env) (st : ManagerState) (n : String) :
    (getLogger env st n).1.state = (ensureInitialized env st).state := by
  unfold getLogger
  cases h : ensureInitialized env st <;> rfl

theorem getLogPath_state (env : Env) (st : ManagerState) :
    (getLogPath env st).1.state = (ensureInitialized env st).state := by
  unfold getLogPath
  cases h : ensureInitialized env st <;> rfl

theorem getUvicornLogConfig_state (env : Env) (st : ManagerState) :
    (getUvicornLogConfig env st).1.state = (ensureInitialized env st).state := by
  unfold getUvicornLogConfig
  cases h : ensureInitialized env st with
  | raised s e => rfl
  | ok s =>
      show (match s.formatter with
        | none =>
            (StepResult.ok s,
             some (buildUvicornLogConfig DEFAULT_CONFIG.format DEFAULT_CONFIG.date_format))
        | some fd => (StepResult.ok s, some (buildUvicornLogConfig fd.1 fd.2))).1.state =
        (StepResult.ok s).state
      cases s.formatter <;> rfl

theorem applyOp_of_initialized (env : Env) (st : ManagerState) (op : Op)
    (h : st.initialized = true) : applyOp env st op = st := by
  have he := ensureInitialized_of_initialized env st h
  cases op with
  | init c k =>
      rw [show applyOp env st (Op.init c k) = (initializeLogging env st c k).1.state from rfl,
        initializeLogging_of_initialized env st c k h]
      rfl
  | logger n =>
      rw [show applyOp env st (Op.logger n) = (getLogger env st n).1.state from rfl,
        getLogger_state, he]
      rfl
  | logPath =>
      rw [show applyOp env st Op.logPath = (getLogPath env st).1.state from rfl,
        getLogPath_state, he]
      rfl
  | uvicornConfig =>
      rw [show applyOp env st Op.uvicornConfig = (getUvicornLogConfig env st).1.state from rfl,
        getUvicornLogConfig_state, he]
      rfl

theorem applyOp_inv (env : Env) (st : ManagerState) (op : Op) (h : Inv st) :
    Inv (applyOp env st op) := by
  cases op with
  | init c k => exact initializeLogging_state_inv env st c k h
  | logger n =>
      rw [show applyOp env st (Op.logger n) = (getLogger env st n).1.state from rfl,
        getLogger_state]
      exact ensureInitialized_state_inv env st h
  | logPath =>
      rw [show applyOp env st Op.logPath = (getLogPath env st).1.state from rfl, getLogPath_state]
      exact ensureInitialized_state_inv env st h
  | uvicornConfig =>
      rw [show applyOp env st Op.uvicornConfig = (getUvicornLogConfig env st).1.state from rfl,
        getUvicornLogConfig_state]
      exact ensureInitialized_state_inv env st h

theorem runOps_cons (st : ManagerState) (p : Env × Op) (t : List (Env × Op)) :
    runOps st (p :: t) = runOps (applyOp p.1 st p.2) t := rfl

theorem runOps_inv (st : ManagerState) (ops : List (Env × Op)) (h : Inv st) :
    Inv (runOps st ops) := by
  induction ops generalizing st with
  | nil => exact h
  | cons p t ih => exact ih _ (applyOp_inv p.1 st p.2 h)

theorem runOps_of_initialized (st : ManagerState) (ops : List (Env × Op))
    (h : st.initialized = true) : runOps st ops = st := by
  induction ops generalizing st with
  | nil => rfl
  | cons p t ih =>
      rw [runOps_cons, applyOp_of_initialized p.1 st p.2 h]
      exact ih st h

theorem runOps_append (st : ManagerState) (l1 l2 : List (Env × Op)) :
    runOps st (l1 ++ l2) = runOps (runOps st l1) l2 := by
  unfold runOps
  exact List.foldl_append _ _ _ _

/-- C9: across any sequence of public operations from a fresh process, the sink-attachment setup completes at most once, the initialization flag is true exactly when it has completed once, and the flag is monotonic — once true after a prefix, it stays true. -/
theorem init_flag_monotone_once (ops : List (Env × Op)) :
    (runOps initialState ops).setupCount ≤ 1 ∧
    ((runOps initialState ops).initialized = true ↔ (runOps initialState ops).setupCount = 1) ∧
    ∀ pre suf, ops = pre ++ suf →
      (runOps initialState pre).initialized = true →
      (runOps initialState ops).initialized = true := by
  have hinv := runOps_inv initialState ops ⟨by decide, by decide⟩
  refine ⟨hinv.1, hinv.2, ?_⟩
  intro pre suf hsplit hpre
  subst hsplit
  rw [runOps_append, runOps_of_initialized _ suf hpre]
  exact hpre

/-- Witness for C9: a concrete two-operation run where the flag set by the first operation persists. -/
theorem init_flag_monotone_once_witness :
    (runOps initialState [(demoEnv, Op.logger "x"), (demoEnv, Op.logPath)]).initialized = true :=
  (init_flag_monotone_once [(demoEnv, Op.logger "x"), (demoEnv, Op.logPath)]).2.2
    [(demoEnv, Op.logger "x")] [(demoEnv, Op.logPath)] rfl (by decide)

/-- C5 counterexample: the explicit initialize path checks and mutates the initialization flag and the sink set without holding the lock and performs no locked re-check, refuting the claim that both paths mutate shared state only under the lock with the double-checked pattern. -/
theorem initialize_path_not_locked :
    (mutationsLocked initializeAccesses && recheckBeforeWrite initializeAccesses) = false := by
  decide

/-- C5 (amended): only the lazy auto-initialization path follows the double-checked locking discipline — its writes to the flag and sink set happen under the lock after a locked re-check of the flag — while the explicit initialize path performs all its writes without the lock; the initialization transition still completes at most once per process. -/
theorem lock_discipline (ops : List (Env × Op)) :
    mutationsLocked ensureInitializedAccesses = true ∧
    recheckBeforeWrite ensureInitializedAccesses = true ∧
    mutationsLocked initializeAccesses = false ∧
    ((initializeAccesses.filter (fun a => a.isWrite)).all (fun a => !a.underLock)) = true ∧
    (runOps initialState ops).setupCount ≤ 1 := by
  refine ⟨by decide, by decide, by decide, by decide, ?_⟩
  exact (runOps_inv initialState ops ⟨by decide, by decide⟩).1

theorem getUvicorn_ok_shape (env : Env) (st st2 : ManagerState) (cfg : UvicornLogConfig)
    (h : getUvicornLogConfig env st = (StepResult.ok st2, some cfg)) :
    ∃ f d, cfg = buildUvicornLogConfig f d := by
  unfold getUvicornLogConfig at h
  cases he : ensureInitialized env st with
  | raised s e => rw [he] at h; exact absurd h (by simp)
  | ok s =>
      rw [he] at h
      change (match s.formatter with
        | none =>
            (StepResult.ok s,
             some (buildUvicornLogConfig DEFAULT_CONFIG.format DEFAULT_CONFIG.date_format))
        | some fd => (StepResult.ok s, some (buildUvicornLogConfig fd.1 fd.2))) =
        (StepResult.ok st2, some cfg) at h
      cases hf : s.formatter with
      | none =>
          simp only [hf] at h
          rw [Prod.mk.injEq] at h
          exact ⟨_, _, (Option.some.inj h.2).symm⟩
      | some fd =>
          simp only [hf] at h
          rw [Prod.mk.injEq] at h
          exact ⟨fd.1, fd.2, (Option.some.inj h.2).symm⟩

/-- C8 counterexample: the loggers mapping returned by get_uvicorn_log_config does NOT give a propagation flag for each entry — at the default lazily-initialized state the root entry carries no propagate key. -/
theorem uvicorn_root_entry_lacks_propagate :
    ((getUvicornLogConfig demoEnv initialState).2.map
      (fun c => c.loggers.all (fun e => e.2.propagate.isSome))) = some false := by
  decide

/-- C8 (amended): every dictionary returned by get_uvicorn_log_config carries the schema version marker 1 and a false disable-existing-loggers flag, non-empty formatters, handlers and loggers mappings, and loggers entries exactly for the root logger and uvicorn, uvicorn.error and uvicorn.access, each giving its handler names and severity threshold; the three uvicorn entries give propagation flag false, while the root entry carries no propagation flag. -/
theorem uvicorn_config_shape (env : Env) (st st2 : ManagerState) (cfg : UvicornLogConfig)
    (h : getUvicornLogConfig env st = (StepResult.ok st2, some cfg)) :
    cfg.version = 1 ∧ cfg.disable_existing_loggers = false ∧
    cfg.formatters ≠ [] ∧ cfg.handlers ≠ [] ∧
    cfg.loggers.map Prod.fst = ["", "uvicorn", "uvicorn.error", "uvicorn.access"] ∧
    (∀ e ∈ cfg.loggers, e.2.handlers = ["default"] ∧ e.2.level = "INFO") ∧
    (∀ e ∈ cfg.loggers, e.1 ≠ "" → e.2.propagate = some false) ∧
    (cfg.loggers.lookup "").map LoggerSpec.propagate = some none := by
  obtain ⟨f, d, rfl⟩ := getUvicorn_ok_shape env st st2 cfg h
  refine ⟨rfl, rfl, by simp [buildUvicornLogConfig], by simp [buildUvicornLogConfig], rfl,
    ?_, ?_, rfl⟩
  · intro e he
    rw [show (buildUvicornLogConfig f d).loggers =
        [("", ⟨["default"], "INFO", none⟩),
         ("uvicorn", ⟨["default"], "INFO", some false⟩),
         ("uvicorn.error", ⟨["default"], "INFO", some false⟩),
         ("uvicorn.access", ⟨["default"], "INFO", some false⟩)] from rfl] at he
    fin_cases he <;> exact ⟨rfl, rfl⟩
  · intro e he hne
    rw [show (buildUvicornLogConfig f d).loggers =
        [("", ⟨["default"], "INFO", none⟩),
         ("uvicorn", ⟨["default"], "INFO", some false⟩),
         ("uvicorn.error", ⟨["default"], "INFO", some false⟩),
         ("uvicorn.access", ⟨["default"], "INFO", some false⟩)] from rfl] at he
    fin_cases he
    · exact absurd rfl hne
    · rfl
    · rfl
    · rfl

/-- Witness for C8: the config produced after a concrete initialization has the four expected logger entries. -/
theorem uvicorn_config_shape_witness :
    demoUviCfg.loggers.map Prod.fst = ["", "uvicorn", "uvicorn.error", "uvicorn.access"] :=
  (uvicorn_config_shape demoEnv demoPostState demoPostState demoUviCfg (by decide)).2.2.2.2.1

/-- C10: for every active configuration, get_uvicorn_log_config returns the fixed dict built from the stored formatter: exactly one handler, a logging.StreamHandler on sys.stderr; the root and all uvicorn logger levels hard-coded to INFO; propagation false for every uvicorn entry; and only the formatter's format and date-format strings — which setup always takes from the configuration's format fields — vary with the configuration. -/
theorem uvicorn_config_constant_except_formatter (env : Env) (st : ManagerState) (f d : String)
    (hi : st.initialized = true) (hf : st.formatter = some (f, d)) :
    getUvicornLogConfig env st = (StepResult.ok st, some (buildUvicornLogConfig f d)) ∧
    (buildUvicornLogConfig f d).handlers =
      [("default", { formatter := "custom", cls := "logging.StreamHandler",
                     stream := "ext://sys.stderr" })] ∧
    (∀ e ∈ (buildUvicornLogConfig f d).loggers, e.2.level = "INFO") ∧
    (∀ e ∈ (buildUvicornLogConfig f d).loggers, e.1 ≠ "" → e.2.propagate = some false) ∧
    (buildUvicornLogConfig f d).formatters =
      [("custom", { cls := "logging.Formatter", fmt := f, datefmt := d })] ∧
    (∀ f2 d2 : String,
      { buildUvicornLogConfig f2 d2 with
          formatters := (buildUvicornLogConfig f d).formatters } = buildUvicornLogConfig f d) ∧
    (∀ (env2 : Env) (st2 st3 : ManagerState) (c c2 : Config),
      setupLoggingInternal env2 st2 c = Except.ok (st3, c2) →
        st3.formatter = some (c.format, c.date_format)) := by
  refine ⟨?_, rfl, ?_, ?_, rfl, fun f2 d2 => rfl, ?_⟩
  · unfold getUvicornLogConfig
    rw [ensureInitialized_of_initialized env st hi]
    change (match st.formatter with
      | none =>
          (StepResult.ok st,
           some (buildUvicornLogConfig DEFAULT_CONFIG.format DEFAULT_CONFIG.date_format))
      | some fd => (StepResult.ok st, some (buildUvicornLogConfig fd.1 fd.2))) =
      (StepResult.ok st, some (buildUvicornLogConfig f d))
    rw [hf]
  · intro e he
    rw [show (buildUvicornLogConfig f d).loggers =
        [("", ⟨["default"], "INFO", none⟩),
         ("uvicorn", ⟨["default"], "INFO", some false⟩),
         ("uvicorn.error", ⟨["default"], "INFO", some false⟩),
         ("uvicorn.access", ⟨["default"], "INFO", some false⟩)] from rfl] at he
    fin_cases he <;> rfl
  · intro e he hne
    rw [show (buildUvicornLogConfig f d).loggers =
        [("", ⟨["default"], "INFO", none⟩),
         ("uvicorn", ⟨["default"], "INFO", some false⟩),
         ("uvicorn.error", ⟨["default"], "INFO", some false⟩),
         ("uvicorn.access", ⟨["default"], "INFO", some false⟩)] from rfl] at he
    fin_cases he
    · exact absurd rfl hne
    · rfl
    · rfl
    · rfl
  · intro env2 st2 st3 c c2 hs
    exact (setup_ok_fields env2 st2 c st3 c2 hs).2.2.1

/-- Witness for C10: at a concretely initialized state the returned config is the default-formatter instance of the fixed dict. -/
theorem uvicorn_config_constant_except_formatter_witness :
    getUvicornLogConfig demoEnv demoPostState = (StepResult.ok demoPostState, some demoUviCfg) :=
  (uvicorn_config_constant_except_formatter demoEnv demoPostState DEFAULT_CONFIG.format
    DEFAULT_CONFIG.date_format (by decide) (by decide)).1

end EasyLog
